import Mathlib

/-!
Verification of the core of the `python-entsoe` repository: the identifier
resolution registries (`src/entsoe/_mappings.py`), the time-series XML parser
(`src/entsoe/_xml.py`), the date-range chunking of the HTTP layer
(`src/entsoe/_http.py`) and the multi-document merge of
`src/entsoe/namespaces/_base.py`.

The embedding is shallow: Python dicts become association lists in the
source's insertion order, Python exceptions become an explicit `PyError`
sum returned through `Except`, and instants are integers counting minutes
since the Unix epoch in UTC (`pandas` stores UTC instants; every resolution
the parser can produce is a whole number of minutes).  Case operations of
Python `str` are modelled on the numeric code points of the characters
(`Char.toNat`), faithful to Python for the ASCII data these registries hold.

The final `DataFrame.sort_values("timestamp")` of the parser uses pandas'
default, not-guaranteed-stable sorting kind, so the parser's result is
modelled relationally: `ParseOk root out` holds when `out` is some
timestamp-sorted permutation of the rows the tree walk collects.
-/

/-- Model of the Python exceptions the core raises: `ValueError` (parse
failures of `int`, `float`, timestamps and resolutions), `KeyError`
(dict lookups, raised by `_resolve` and `_name`), `NoDataError` and
`InvalidParameterError` from `entsoe.exceptions`. -/
inductive PyError where
  | valueError (msg : String) : PyError
  | keyError (msg : String) : PyError
  | noData (msg : String) : PyError
  | invalidParameter (msg : String) : PyError
deriving DecidableEq, Repr

/-- True exactly on a `NoDataError` outcome. -/
def isNoData {α : Type} : Except PyError α → Bool
  | .error (.noData _) => true
  | _ => false

/-- True exactly on a `KeyError` outcome. -/
def isKeyErr {α : Type} : Except PyError α → Bool
  | .error (.keyError _) => true
  | _ => false

/-- True exactly on an `InvalidParameterError` outcome. -/
def isInvalidParam {α : Type} : Except PyError α → Bool
  | .error (.invalidParameter _) => true
  | _ => false

/-- The code points of a string, the carrier on which Python's case
operations are modelled. -/
def strCodes (s : String) : List Nat := s.data.map Char.toNat

/-- Python `str.lower` on one code point (ASCII fragment: `A`-`Z` shift
down by 32, everything else unchanged). -/
def lowerN (n : Nat) : Nat := if 65 ≤ n ∧ n ≤ 90 then n + 32 else n

/-- Python `str.upper` on one code point (ASCII fragment: `a`-`z` shift
up by 32, everything else unchanged). -/
def upperN (n : Nat) : Nat := if 97 ≤ n ∧ n ≤ 122 then n - 32 else n

/-- The space-to-underscore substitution `str.replace(" ", "_")` on one
code point. -/
def replUnderN (n : Nat) : Nat := if n = 32 then 95 else n

/-- Whitespace in the sense of Python `str.strip()`. -/
def isPySpace (c : Char) : Bool :=
  c = ' ' || c = '\t' || c = '\n' || c = '\r' || c = '\x0b' || c = '\x0c'

/-- Python `str.strip()`: drop leading and trailing whitespace. -/
def pyStrip (s : String) : String :=
  ⟨((s.data.dropWhile isPySpace).reverse.dropWhile isPySpace).reverse⟩

/-- ASCII decimal digit test on a character. -/
def isDig (c : Char) : Bool := 48 ≤ c.toNat && c.toNat ≤ 57

/-- Numeric value of a list of ASCII digits, most significant first. -/
def digitsToNat (cs : List Char) : Nat :=
  cs.foldl (fun a c => a * 10 + (c.toNat - 48)) 0

/-- Model of Python `int(text)`: optional surrounding whitespace, optional
sign, then one or more ASCII digits; anything else is a `ValueError`.
(Underscore digit grouping and non-ASCII digits are not modelled.) -/
def pyInt (s : String) : Except PyError Int :=
  match (pyStrip s).data with
  | '-' :: ds =>
      if ds ≠ [] ∧ ds.all isDig then .ok (-(digitsToNat ds : Int))
      else .error (.valueError ("invalid literal for int: '" ++ s ++ "'"))
  | '+' :: ds =>
      if ds ≠ [] ∧ ds.all isDig then .ok (digitsToNat ds : Int)
      else .error (.valueError ("invalid literal for int: '" ++ s ++ "'"))
  | ds =>
      if ds ≠ [] ∧ ds.all isDig then .ok (digitsToNat ds : Int)
      else .error (.valueError ("invalid literal for int: '" ++ s ++ "'"))

/-- An exact decimal standing in for the IEEE double Python `float`
returns: the value `num / 10 ^ den10`, kept unnormalised.  The parser only
carries values into rows and never computes with them, so the exact
decimal of the literal is a faithful stand-in. -/
structure PyFloat where
  num : Int
  den10 : Nat
deriving DecidableEq, Repr

/-- The decimal `(-1)^neg * ipfp * 10 ^ (exp - fplen)` as a `PyFloat`. -/
def mkPyFloat (neg : Bool) (ipfp : Nat) (fplen : Nat) (exp : Int) : PyFloat :=
  let e : Int := exp - fplen
  let m : Nat := if 0 ≤ e then ipfp * 10 ^ e.toNat else ipfp
  ⟨if neg then -(m : Int) else (m : Int), if 0 ≤ e then 0 else (-e).toNat⟩

/-- Exponent suffix of a float literal: empty, or `e`/`E`, optional sign,
digits. -/
def parseExp (cs : List Char) : Option Int :=
  match cs with
  | [] => some 0
  | e :: rest =>
      if e = 'e' ∨ e = 'E' then
        match rest with
        | '-' :: ds => if ds ≠ [] ∧ ds.all isDig then some (-(digitsToNat ds : Int)) else none
        | '+' :: ds => if ds ≠ [] ∧ ds.all isDig then some (digitsToNat ds : Int) else none
        | ds => if ds ≠ [] ∧ ds.all isDig then some (digitsToNat ds : Int) else none
      else none

/-- Unsigned part of a float literal: digits, optionally a point and more
digits, at least one digit in total, then an optional exponent. -/
def parseFloatBody (neg : Bool) (cs : List Char) : Option PyFloat :=
  let ip := cs.takeWhile isDig
  let rest := cs.dropWhile isDig
  match rest with
  | '.' :: rest2 =>
      let fp := rest2.takeWhile isDig
      let rest3 := rest2.dropWhile isDig
      if ip = [] ∧ fp = [] then none
      else (parseExp rest3).map fun e => mkPyFloat neg (digitsToNat (ip ++ fp)) fp.length e
  | _ =>
      if ip = [] then none
      else (parseExp rest).map fun e => mkPyFloat neg (digitsToNat ip) 0 e

/-- Model of Python `float(text)` restricted to finite decimal literals:
optional whitespace and sign, digits with optional fraction and exponent.
The parser never computes with the values, so exact decimals stand in
for IEEE doubles; `inf`/`nan` literals are not modelled. -/
def pyFloatOpt (s : String) : Option PyFloat :=
  match (pyStrip s).data with
  | '-' :: cs => parseFloatBody true cs
  | '+' :: cs => parseFloatBody false cs
  | cs => parseFloatBody false cs

/-- The value of Python `float(text)`, or `ValueError`. -/
def pyFloat (s : String) : Except PyError PyFloat :=
  match pyFloatOpt s with
  | some v => .ok v
  | none => .error (.valueError ("could not convert string to float: '" ++ s ++ "'"))

/-- One registry entry of `_mappings.py`: display name, slug, description. -/
structure CodeEntry where
  name : String
  slug : String
  descr : String
deriving DecidableEq, Repr

/-- A code registry: a Python dict `{code: entry}` in insertion order. -/
def Registry : Type := List (String × CodeEntry)

instance : DecidableEq Registry := inferInstanceAs (DecidableEq (List (String × CodeEntry)))

instance : Membership (String × CodeEntry) Registry := inferInstanceAs (Membership _ (List _))

/-- Lexicographic comparison of code-point lists, Python's `<` on strings. -/
def codesLt : List Nat → List Nat → Bool
  | [], [] => false
  | [], _ :: _ => true
  | _ :: _, [] => false
  | a :: as, b :: bs => if a < b then true else if a = b then codesLt as bs else false

/-- String comparison by code points, as Python `sorted` uses. -/
def strLt (a b : String) : Bool := codesLt (strCodes a) (strCodes b)

/-- Insertion into a list sorted by `strLt` on the key. -/
def sortedInsert (p : String × CodeEntry) : List (String × CodeEntry) → List (String × CodeEntry)
  | [] => [p]
  | q :: rest => if strLt p.1 q.1 then p :: q :: rest else q :: sortedInsert p rest

/-- Python `sorted(registry.items())`: insertion sort by the code string
(codes are unique, so the value never takes part in the comparison). -/
def sortByCode (reg : Registry) : List (String × CodeEntry) :=
  (reg : List (String × CodeEntry)).foldr sortedInsert []

/-- Comma-join, Python `", ".join(...)`. -/
def joinComma : List String → String
  | [] => ""
  | [s] => s
  | s :: rest => s ++ ", " ++ joinComma rest

/-- The enumeration `", ".join(f"{e['slug']} ({code})" for code, e in sorted(registry.items()))`
inside `_resolve`'s `KeyError` message. -/
def availableString (reg : Registry) : String :=
  joinComma ((sortByCode reg).map fun p => p.2.slug ++ " (" ++ p.1 ++ ")")

/-- The message of the `KeyError` that `_resolve` raises. -/
def unknownIdMessage (reg : Registry) (identifier : String) : String :=
  "Unknown identifier: '" ++ identifier ++ "'. Available: " ++ availableString reg

/-- Lowered and stripped identifier, Python `identifier.lower().strip()`,
on code points. -/
def idLowerCodes (identifier : String) : List Nat :=
  strCodes (pyStrip ⟨identifier.data.map (fun c => Char.ofNat (lowerN c.toNat))⟩)

/-- Embedding of `_resolve(registry, identifier)` from `_mappings.py`:
exact code match first, then slug match against the lowered and stripped
identifier, then case-insensitive name match, else `KeyError` whose message
enumerates every slug and code. -/
def resolveCode (reg : Registry) (identifier : String) : Except PyError String :=
  if (reg : List (String × CodeEntry)).any (fun p => p.1 = identifier) then .ok identifier
  else
    match (reg : List (String × CodeEntry)).find? (fun p => strCodes p.2.slug = idLowerCodes identifier) with
    | some p => .ok p.1
    | none =>
        match (reg : List (String × CodeEntry)).find? (fun p => (strCodes p.2.name).map lowerN = idLowerCodes identifier) with
        | some p => .ok p.1
        | none => .error (.keyError (unknownIdMessage reg identifier))

/-- Embedding of `_name(registry, code, fallback=...)` from `_mappings.py`:
direct key lookup; unknown code returns the fallback when one is supplied
and raises `KeyError` otherwise. -/
def nameOf (reg : Registry) (code : String) (fallback : Option String) : Except PyError String :=
  match (reg : List (String × CodeEntry)).find? (fun p => p.1 = code) with
  | some p => .ok p.2.name
  | none =>
      match fallback with
      | some f => .ok f
      | none => .error (.keyError ("Unknown code: '" ++ code ++ "' in registry"))
/-- The `PSR_TYPES` registry of `_mappings.py`, in source order. -/
def PSR_TYPES : Registry := [
  ("B01", ⟨"Biomass", "biomass", "Biomass"⟩),
  ("B02", ⟨"Fossil Brown coal/Lignite", "lignite", "Fossil brown coal/lignite"⟩),
  ("B03", ⟨"Fossil Coal-derived gas", "coal_gas", "Fossil coal-derived gas"⟩),
  ("B04", ⟨"Fossil Gas", "gas", "Fossil gas"⟩),
  ("B05", ⟨"Fossil Hard coal", "hard_coal", "Fossil hard coal"⟩),
  ("B06", ⟨"Fossil Oil", "oil", "Fossil oil"⟩),
  ("B07", ⟨"Fossil Oil shale", "oil_shale", "Fossil oil shale"⟩),
  ("B08", ⟨"Fossil Peat", "peat", "Fossil peat"⟩),
  ("B09", ⟨"Geothermal", "geothermal", "Geothermal"⟩),
  ("B10", ⟨"Hydro Pumped Storage", "pumped_storage", "Hydro pumped storage"⟩),
  ("B11", ⟨"Hydro Run-of-river and poundage", "run_of_river", "Hydro run-of-river and poundage"⟩),
  ("B12", ⟨"Hydro Water Reservoir", "hydro_reservoir", "Hydro water reservoir"⟩),
  ("B13", ⟨"Marine", "marine", "Marine"⟩),
  ("B14", ⟨"Nuclear", "nuclear", "Nuclear"⟩),
  ("B15", ⟨"Other renewable", "other_renewable", "Other renewable"⟩),
  ("B16", ⟨"Solar", "solar", "Solar"⟩),
  ("B17", ⟨"Waste", "waste", "Waste"⟩),
  ("B18", ⟨"Wind Offshore", "wind_offshore", "Wind offshore"⟩),
  ("B19", ⟨"Wind Onshore", "wind_onshore", "Wind onshore"⟩),
  ("B20", ⟨"Other", "other", "Other"⟩)
]

/-- The `PROCESS_TYPES` registry of `_mappings.py`, in source order. -/
def PROCESS_TYPES : Registry := [
  ("A01", ⟨"Day ahead", "day_ahead", "Day ahead forecast"⟩),
  ("A02", ⟨"Intraday incremental", "intraday_incremental", "Intraday incremental"⟩),
  ("A16", ⟨"Realised", "realised", "Realised/actual data"⟩),
  ("A18", ⟨"Intraday total", "intraday_total", "Intraday total"⟩),
  ("A31", ⟨"Week ahead", "week_ahead", "Week ahead forecast"⟩),
  ("A32", ⟨"Month ahead", "month_ahead", "Month ahead forecast"⟩),
  ("A33", ⟨"Year ahead", "year_ahead", "Year ahead forecast"⟩),
  ("A39", ⟨"Synchronisation process", "synchronisation", "Synchronisation process"⟩),
  ("A40", ⟨"Intraday process", "intraday_process", "Intraday process"⟩),
  ("A46", ⟨"Replacement reserve", "replacement_reserve", "Replacement reserve (RR)"⟩),
  ("A47", ⟨"mFRR", "mfrr", "Manual frequency restoration reserve"⟩),
  ("A51", ⟨"aFRR", "afrr", "Automatic frequency restoration reserve"⟩),
  ("A52", ⟨"FCR", "fcr", "Frequency containment reserve"⟩),
  ("A56", ⟨"Frequency netting", "frequency_netting", "Frequency netting process"⟩)
]

/-- The `DOCUMENT_TYPES` registry of `_mappings.py`, in source order. -/
def DOCUMENT_TYPES : Registry := [
  ("A09", ⟨"Finalised schedule", "scheduled_exchanges", "Finalised schedule"⟩),
  ("A11", ⟨"Aggregated energy data report", "physical_crossborder_flows", "Aggregated energy data report"⟩),
  ("A25", ⟨"Allocation result document", "allocation_result", "Allocation result document"⟩),
  ("A26", ⟨"Capacity document", "capacity", "Capacity document"⟩),
  ("A31", ⟨"Agreed capacity", "agreed_capacity", "Agreed capacity"⟩),
  ("A44", ⟨"Price document", "day_ahead_prices", "Price document"⟩),
  ("A61", ⟨"Estimated Net Transfer Capacity", "net_transfer_capacity", "Estimated net transfer capacity"⟩),
  ("A63", ⟨"Redispatch notice", "redispatch_notice", "Redispatch notice"⟩),
  ("A65", ⟨"System total load", "actual_load", "System total load"⟩),
  ("A68", ⟨"Installed generation per type", "installed_capacity", "Installed generation per type"⟩),
  ("A69", ⟨"Wind and solar forecast", "generation_forecast_wind_solar", "Wind and solar generation forecast"⟩),
  ("A70", ⟨"Load forecast margin", "load_forecast_margin", "Load forecast margin"⟩),
  ("A71", ⟨"Generation forecast", "generation_forecast", "Generation forecast"⟩),
  ("A73", ⟨"Actual generation per unit", "actual_generation_per_plant", "Actual generation per generating unit"⟩),
  ("A74", ⟨"Wind and solar generation", "wind_solar_generation", "Wind and solar generation"⟩),
  ("A75", ⟨"Actual generation per type", "actual_generation_per_type", "Actual generation per type"⟩),
  ("A76", ⟨"Load unavailability", "load_unavailability", "Load unavailability"⟩),
  ("A77", ⟨"Production unavailability", "production_unavailability", "Generation unavailability"⟩),
  ("A78", ⟨"Transmission unavailability", "transmission_unavailability", "Transmission infrastructure unavailability"⟩),
  ("A79", ⟨"Offshore unavailability", "offshore_unavailability", "Offshore grid infrastructure unavailability"⟩),
  ("A80", ⟨"Generation unavailability", "generation_unavailability", "Generation unavailability"⟩),
  ("A81", ⟨"Contracted reserves", "contracted_reserve_prices", "Contracted reserves"⟩),
  ("A82", ⟨"Accepted aggregated offers", "accepted_offers", "Accepted aggregated offers"⟩),
  ("A83", ⟨"Activated balancing quantities", "activated_balancing_quantities", "Activated balancing quantities"⟩),
  ("A84", ⟨"Activated balancing energy prices", "activated_balancing_energy_prices", "Prices of activated balancing energy"⟩),
  ("A85", ⟨"Imbalance prices", "imbalance_prices", "Imbalance prices"⟩),
  ("A86", ⟨"Imbalance volumes", "imbalance_volumes", "Imbalance volume"⟩),
  ("A87", ⟨"Financial expenses", "financial_expenses", "Financial expenses and income for balancing"⟩),
  ("A88", ⟨"Cross-border balancing", "cross_border_balancing", "Cross-border balancing"⟩),
  ("A89", ⟨"Contracted reserve prices", "contracted_reserve_prices_detail", "Contracted reserve prices — detailed"⟩),
  ("A90", ⟨"Interconnection NTC DA", "interconnection_ntc_da", "Interconnection network expansion — day ahead"⟩),
  ("A91", ⟨"HVDC availability", "hvdc_availability", "DC link capacity"⟩),
  ("A92", ⟨"HVDC planned unavailability", "hvdc_planned_unavailability", "Planned unavailability of DC links"⟩),
  ("A93", ⟨"HVDC forced unavailability", "hvdc_forced_unavailability", "Forced unavailability of DC links"⟩),
  ("A94", ⟨"Cross-border exchange forecast", "cross_border_forecast", "Day-ahead commercial exchange"⟩),
  ("A95", ⟨"Expansion and dismantling", "expansion_dismantling", "Expansion and dismantling projects"⟩),
  ("B11", ⟨"Aggregated filling rate", "aggregated_filling_rate", "Aggregated filling rate of water reservoirs and hydro storage plants"⟩)
]

/-- The `PRICE_CATEGORIES` registry of `_mappings.py`, in source order. -/
def PRICE_CATEGORIES : Registry := [
  ("A04", ⟨"Long", "long", "Excess balance (system long)"⟩),
  ("A05", ⟨"Short", "short", "Insufficient balance (system short)"⟩),
  ("A06", ⟨"Average bid price", "average_bid_price", "Average bid price"⟩),
  ("A07", ⟨"Marginal bid price", "marginal_bid_price", "Marginal bid price"⟩)
]

/-- The `BUSINESS_TYPES` registry of `_mappings.py`, in source order. -/
def BUSINESS_TYPES : Registry := [
  ("A25", ⟨"General capacity information", "general_capacity", "General capacity information"⟩),
  ("A29", ⟨"Already allocated capacity (AAC)", "aac", "Already allocated capacity"⟩),
  ("A43", ⟨"Requested capacity (without price)", "requested_capacity", "Requested capacity without price"⟩),
  ("A46", ⟨"System Operator redispatching", "so_redispatching", "System operator redispatching"⟩),
  ("A53", ⟨"Planned maintenance", "planned_maintenance", "Planned maintenance"⟩),
  ("A54", ⟨"Unplanned outage", "unplanned_outage", "Unplanned outage"⟩),
  ("A85", ⟨"Internal redispatch", "internal_redispatch", "Internal redispatch"⟩),
  ("A95", ⟨"Frequency containment reserve", "fcr", "Frequency containment reserve"⟩),
  ("A96", ⟨"Automatic frequency restoration reserve", "afrr", "Automatic frequency restoration reserve"⟩),
  ("A97", ⟨"Manual frequency restoration reserve", "mfrr", "Manual frequency restoration reserve"⟩),
  ("A98", ⟨"Replacement reserve", "rr", "Replacement reserve"⟩),
  ("B95", ⟨"Procured capacity", "procured_capacity", "Procured capacity"⟩),
  ("C22", ⟨"Shared balancing reserve capacity", "shared_reserve", "Shared balancing reserve capacity"⟩),
  ("C23", ⟨"Share of reserve capacity", "share_reserve", "Share of reserve capacity"⟩),
  ("C24", ⟨"Actual reserve capacity", "actual_reserve", "Actual reserve capacity"⟩)
]

/-- The `MARKET_AGREEMENT_TYPES` registry of `_mappings.py`, in source order. -/
def MARKET_AGREEMENT_TYPES : Registry := [
  ("A01", ⟨"Daily", "daily", "Daily"⟩),
  ("A02", ⟨"Weekly", "weekly", "Weekly"⟩),
  ("A03", ⟨"Monthly", "monthly", "Monthly"⟩),
  ("A04", ⟨"Yearly", "yearly", "Yearly"⟩),
  ("A05", ⟨"Total", "total", "Total"⟩),
  ("A06", ⟨"Long term", "long_term", "Long term"⟩),
  ("A07", ⟨"Intraday", "intraday", "Intraday"⟩),
  ("A13", ⟨"Hourly", "hourly", "Hourly"⟩)
]

/-- The `DOC_STATUS` registry of `_mappings.py`, in source order. -/
def DOC_STATUS : Registry := [
  ("A01", ⟨"Intermediate", "intermediate", "Intermediate"⟩),
  ("A02", ⟨"Final", "final", "Final"⟩),
  ("A05", ⟨"Active", "active", "Active"⟩),
  ("A09", ⟨"Cancelled", "cancelled", "Cancelled"⟩),
  ("A13", ⟨"Withdrawn", "withdrawn", "Withdrawn"⟩),
  ("X01", ⟨"Estimated", "estimated", "Estimated"⟩)
]

/-- One area entry of `_mappings.py`: EIC code, display name, timezone. -/
structure AreaEntry where
  eic : String
  name : String
  tz : String
deriving DecidableEq, Repr

/-- The `AREAS` table of `_mappings.py`, in source order. -/
def AREAS : List (String × AreaEntry) := [
  ("AL", ⟨"10YAL-KESH-----5", "Albania", "Europe/Tirane"⟩),
  ("AT", ⟨"10YAT-APG------L", "Austria", "Europe/Vienna"⟩),
  ("BA", ⟨"10YBA-JPCC-----D", "Bosnia and Herzegovina", "Europe/Sarajevo"⟩),
  ("BE", ⟨"10YBE----------2", "Belgium", "Europe/Brussels"⟩),
  ("BG", ⟨"10YCA-BULGARIA-R", "Bulgaria", "Europe/Sofia"⟩),
  ("CH", ⟨"10YCH-SWISSGRIDZ", "Switzerland", "Europe/Zurich"⟩),
  ("CZ", ⟨"10YCZ-CEPS-----N", "Czech Republic", "Europe/Prague"⟩),
  ("DE", ⟨"10Y1001A1001A83F", "Germany", "Europe/Berlin"⟩),
  ("DE_LU", ⟨"10Y1001A1001A82H", "Germany/Luxembourg", "Europe/Berlin"⟩),
  ("DE_AT_LU", ⟨"10Y1001A1001A63L", "Germany/Austria/Luxembourg", "Europe/Berlin"⟩),
  ("DK", ⟨"10Y1001A1001A65H", "Denmark", "Europe/Copenhagen"⟩),
  ("DK_1", ⟨"10YDK-1--------W", "Denmark (West)", "Europe/Copenhagen"⟩),
  ("DK_2", ⟨"10YDK-2--------M", "Denmark (East)", "Europe/Copenhagen"⟩),
  ("EE", ⟨"10Y1001A1001A39I", "Estonia", "Europe/Tallinn"⟩),
  ("ES", ⟨"10YES-REE------0", "Spain", "Europe/Madrid"⟩),
  ("FI", ⟨"10YFI-1--------U", "Finland", "Europe/Helsinki"⟩),
  ("FR", ⟨"10YFR-RTE------C", "France", "Europe/Paris"⟩),
  ("GB", ⟨"10YGB----------A", "Great Britain", "Europe/London"⟩),
  ("GR", ⟨"10YGR-HTSO-----Y", "Greece", "Europe/Athens"⟩),
  ("HR", ⟨"10YHR-HEP------M", "Croatia", "Europe/Zagreb"⟩),
  ("HU", ⟨"10YHU-MAVIR----U", "Hungary", "Europe/Budapest"⟩),
  ("IE", ⟨"10YIE-1001A00010", "Ireland", "Europe/Dublin"⟩),
  ("IE_SEM", ⟨"10Y1001A1001A59C", "Ireland (SEM)", "Europe/Dublin"⟩),
  ("IT", ⟨"10YIT-GRTN-----B", "Italy", "Europe/Rome"⟩),
  ("IT_NORTH", ⟨"10Y1001A1001A73I", "Italy (North)", "Europe/Rome"⟩),
  ("IT_CNOR", ⟨"10Y1001A1001A70O", "Italy (Central North)", "Europe/Rome"⟩),
  ("IT_CSUD", ⟨"10Y1001A1001A71M", "Italy (Central South)", "Europe/Rome"⟩),
  ("IT_SUD", ⟨"10Y1001A1001A788", "Italy (South)", "Europe/Rome"⟩),
  ("IT_SICI", ⟨"10Y1001A1001A74G", "Italy (Sicily)", "Europe/Rome"⟩),
  ("IT_SARD", ⟨"10Y1001A1001A75E", "Italy (Sardinia)", "Europe/Rome"⟩),
  ("LT", ⟨"10YLT-1001A0008Q", "Lithuania", "Europe/Vilnius"⟩),
  ("LU", ⟨"10YLU-CEGEDEL-NQ", "Luxembourg", "Europe/Luxembourg"⟩),
  ("LV", ⟨"10YLV-1001A00074", "Latvia", "Europe/Riga"⟩),
  ("ME", ⟨"10YCS-CG-TSO---S", "Montenegro", "Europe/Podgorica"⟩),
  ("MK", ⟨"10YMK-MEPSO----8", "North Macedonia", "Europe/Skopje"⟩),
  ("MT", ⟨"10Y1001A1001A93C", "Malta", "Europe/Malta"⟩),
  ("NL", ⟨"10YNL----------L", "Netherlands", "Europe/Amsterdam"⟩),
  ("NO", ⟨"10YNO-0--------C", "Norway", "Europe/Oslo"⟩),
  ("NO_1", ⟨"10YNO-1--------2", "Norway (South-East)", "Europe/Oslo"⟩),
  ("NO_2", ⟨"10YNO-2--------T", "Norway (South-West)", "Europe/Oslo"⟩),
  ("NO_3", ⟨"10YNO-3--------J", "Norway (Central)", "Europe/Oslo"⟩),
  ("NO_4", ⟨"10YNO-4--------9", "Norway (North)", "Europe/Oslo"⟩),
  ("NO_5", ⟨"10Y1001A1001A48H", "Norway (West)", "Europe/Oslo"⟩),
  ("PL", ⟨"10YPL-AREA-----S", "Poland", "Europe/Warsaw"⟩),
  ("PT", ⟨"10YPT-REN------W", "Portugal", "Europe/Lisbon"⟩),
  ("RO", ⟨"10YRO-TEL------P", "Romania", "Europe/Bucharest"⟩),
  ("RS", ⟨"10YCS-SERBIATSOV", "Serbia", "Europe/Belgrade"⟩),
  ("SE", ⟨"10YSE-1--------K", "Sweden", "Europe/Stockholm"⟩),
  ("SE_1", ⟨"10Y1001A1001A44P", "Sweden (Luleå)", "Europe/Stockholm"⟩),
  ("SE_2", ⟨"10Y1001A1001A45N", "Sweden (Sundsvall)", "Europe/Stockholm"⟩),
  ("SE_3", ⟨"10Y1001A1001A46L", "Sweden (Stockholm)", "Europe/Stockholm"⟩),
  ("SE_4", ⟨"10Y1001A1001A47J", "Sweden (Malmö)", "Europe/Stockholm"⟩),
  ("SI", ⟨"10YSI-ELES-----O", "Slovenia", "Europe/Ljubljana"⟩),
  ("SK", ⟨"10YSK-SEPS-----K", "Slovakia", "Europe/Bratislava"⟩),
  ("TR", ⟨"10YTR-TEIAS----W", "Turkey", "Europe/Istanbul"⟩),
  ("UA", ⟨"10Y1001C--00003F", "Ukraine", "Europe/Kiev"⟩),
  ("UK", ⟨"10Y1001A1001A92E", "United Kingdom", "Europe/London"⟩),
  ("XK", ⟨"10Y1001C--00100H", "Kosovo", "Europe/Belgrade"⟩)
]

deriving instance DecidableEq for Except

/-- Python `str.lower` on a whole string (ASCII fragment), used to build
concrete lower-cased inputs such as `entry.name.lower()`. -/
def lowerStr (s : String) : String := ⟨s.data.map (fun c => Char.ofNat (lowerN c.toNat))⟩

/-- One registry entry round-trips through `_resolve` by code, by slug and
by lower-cased display name. -/
def roundTripOK (reg : Registry) : Bool :=
  (reg : List (String × CodeEntry)).all fun p =>
    decide (resolveCode reg p.1 = .ok p.1) &&
    decide (resolveCode reg p.2.slug = .ok p.1) &&
    decide (resolveCode reg (lowerStr p.2.name) = .ok p.1)

/-- Normalisation `identifier.strip().upper().replace(" ", "_")` of
`lookup_area`, on code points. -/
def normKeyCodes (identifier : String) : List Nat :=
  (strCodes (pyStrip identifier)).map fun n => replUnderN (upperN n)

/-- Insertion into a list of strings sorted by `strLt`. -/
def insertStr (k : String) : List String → List String
  | [] => [k]
  | q :: rest => if strLt k q then k :: q :: rest else q :: insertStr k rest

/-- The sorted key list in `lookup_area`'s error message,
`", ".join(sorted(AREA_CODES.keys()))`. -/
def sortedKeys (keys : List String) : List String :=
  keys.foldr (fun k acc => insertStr k acc) []

/-- Embedding of `lookup_area(identifier)` from `_mappings.py`: try the
normalised identifier as ISO key, then the stripped identifier as EIC code,
then the lower-cased stripped identifier as display name; otherwise
`InvalidParameterError` listing all ISO keys. -/
def lookupArea (identifier : String) : Except PyError String :=
  match AREAS.find? (fun p => strCodes p.1 = normKeyCodes identifier) with
  | some p => .ok p.2.eic
  | none =>
      if (AREAS.find? (fun p => p.2.eic = pyStrip identifier)).isSome then .ok (pyStrip identifier)
      else
        match AREAS.find? (fun p =>
            (strCodes p.2.name).map lowerN = (strCodes (pyStrip identifier)).map lowerN) with
        | some p => .ok p.2.eic
        | none =>
            .error (.invalidParameter
              ("Unknown country: '" ++ identifier ++ "'. Available: " ++
                joinComma (sortedKeys (AREAS.map Prod.fst))))

/-- An XML element as `xml.etree.ElementTree` presents it to `_xml.py`:
a (possibly namespace-qualified) tag, the optional text directly under the
element, and the child elements in document order.  `ET.fromstring` itself
(text to tree) is the external XML library and is not modelled. -/
inductive XElem where
  | node (tag : String) (text : Option String) (children : List XElem)

/-- Tag of an element. -/
def XElem.tag : XElem → String
  | .node t _ _ => t

/-- Text directly under an element (`element.text`). -/
def XElem.text : XElem → Option String
  | .node _ t _ => t

/-- Child elements in document order. -/
def XElem.children : XElem → List XElem
  | .node _ _ cs => cs

/-- Embedding of `_strip_ns`: `re.sub(r"\x7b[^\x7d]+\x7d", "", tag)`.
Each occurrence of an opening brace, one or more non-closing-brace
characters and a closing brace is removed; a brace pair with nothing
between them, or an opening brace with no closing brace after it, stays. -/
def stripNsAux : Nat → List Char → List Char
  | 0, cs => cs
  | fuel + 1, cs =>
      match cs with
      | [] => []
      | c :: rest =>
          if c = '\x7b' then
            match rest.dropWhile (fun d => decide (d ≠ '\x7d')) with
            | [] => c :: rest
            | _ :: suffix =>
                if rest.takeWhile (fun d => decide (d ≠ '\x7d')) = [] then
                  c :: stripNsAux fuel rest
                else
                  stripNsAux fuel suffix
          else c :: stripNsAux fuel rest

/-- Namespace prefix removal on a tag, `_strip_ns` of `_xml.py`.  The fuel
argument of `stripNsAux` only bounds the recursion; every step consumes at
least one character, so a fuel equal to the tag's length never runs out. -/
def stripNs (tag : String) : String := ⟨stripNsAux tag.data.length tag.data⟩

/-- Embedding of `_find`: first child whose namespace-stripped tag equals
`name`. -/
def findChild (e : XElem) (name : String) : Option XElem :=
  e.children.find? fun c => decide (stripNs c.tag = name)

/-- Embedding of `_findall`: all children whose namespace-stripped tag
equals `name`, in document order. -/
def findAll (e : XElem) (name : String) : List XElem :=
  e.children.filter fun c => decide (stripNs c.tag = name)

/-- Embedding of `_find_text`: the text of the first child with the given
local name, when both exist. -/
def findTextEl (e : XElem) (name : String) : Option String :=
  (findChild e name).bind XElem.text

/-- The initial match of `re.match(r"PT?(\d+)([MHDY])", resolution)`:
a `P`, an optional `T`, a maximal nonempty run of digits, then a unit
letter; anything after the unit is ignored, as `re.match` only anchors
at the start.  `matchResAfterP` handles everything after the optional
`T`: the nonempty digit run and the unit letter. -/
def matchResAfterP (cs : List Char) : Option (Nat × Char) :=
  if cs.takeWhile isDig = [] then none
  else
    match cs.dropWhile isDig with
    | u :: _ =>
        if u = 'M' ∨ u = 'H' ∨ u = 'D' ∨ u = 'Y' then some (digitsToNat (cs.takeWhile isDig), u)
        else none
    | [] => none

/-- The whole regex: a leading `P`, an optional `T`, then `matchResAfterP`. -/
def matchResolution (s : String) : Option (Nat × Char) :=
  match s.data with
  | 'P' :: rest => matchResAfterP (match rest with | 'T' :: r => r | r => r)
  | _ => none

/-- Embedding of `_parse_resolution` of `_xml.py`, in minutes: `M` maps to
minutes, `H` to hours, `D` to days, `Y` to exactly `365` days per year;
a string the regex does not match raises `ValueError`.  (The final
`Unknown resolution unit` branch of the source is kept although the
regex makes it unreachable.) -/
def parseResolution (s : String) : Except PyError Int :=
  match matchResolution s with
  | none => .error (.valueError ("Cannot parse resolution: " ++ s))
  | some (v, u) =>
      if u = 'M' then .ok (v : Int)
      else if u = 'H' then .ok ((60 * v : Nat) : Int)
      else if u = 'D' then .ok ((1440 * v : Nat) : Int)
      else if u = 'Y' then .ok ((365 * 1440 * v : Nat) : Int)
      else .error (.valueError ("Unknown resolution unit: " ++ ⟨[u]⟩))

/-- Gregorian leap-year test. -/
def isLeapYear (y : Nat) : Bool := (y % 4 == 0 && y % 100 != 0) || y % 400 == 0

/-- Days in a Gregorian year. -/
def daysInYear (y : Nat) : Nat := if isLeapYear y then 366 else 365

/-- Days between 1970-01-01 and the start of year `1970 + n`. -/
def daysFrom1970 : Nat → Nat
  | 0 => 0
  | n + 1 => daysFrom1970 n + daysInYear (1970 + n)

/-- Month lengths of a Gregorian year. -/
def monthLengths (leap : Bool) : List Nat :=
  [31, if leap then 29 else 28, 31, 30, 31, 30, 31, 31, 30, 31, 30, 31]

/-- Days between the start of the year and the start of month `m`. -/
def daysBeforeMonth (leap : Bool) (m : Nat) : Nat :=
  ((monthLengths leap).take (m - 1)).sum

/-- Minutes since the Unix epoch of a UTC civil date-time. -/
def utcMinutes (y mo d hh mi : Nat) : Int :=
  ((daysFrom1970 (y - 1970) + daysBeforeMonth (isLeapYear y) mo + (d - 1)) * 1440 + hh * 60 + mi : Nat)

/-- ISO-8601 date-time of the provider's `timeInterval/start` format
(`YYYY-MM-DDTHH:MM` and an optional `Z` or `±HH:MM` offset), as minutes
since the epoch, offsets normalised away to UTC. -/
def parseIsoMinutes (cs : List Char) : Option Int :=
  match cs with
  | y1 :: y2 :: y3 :: y4 :: '-' :: m1 :: m2 :: '-' :: d1 :: d2 :: 'T' :: h1 :: h2 :: ':' :: n1 :: n2 :: tail =>
      if [y1, y2, y3, y4, m1, m2, d1, d2, h1, h2, n1, n2].all isDig then
        let y := digitsToNat [y1, y2, y3, y4]
        let mo := digitsToNat [m1, m2]
        let d := digitsToNat [d1, d2]
        let hh := digitsToNat [h1, h2]
        let mi := digitsToNat [n1, n2]
        if 1970 ≤ y ∧ 1 ≤ mo ∧ mo ≤ 12 ∧ 1 ≤ d ∧ d ≤ 31 ∧ hh ≤ 23 ∧ mi ≤ 59 then
          let base := utcMinutes y mo d hh mi
          match tail with
          | [] => some base
          | ['Z'] => some base
          | '+' :: o1 :: o2 :: ':' :: o3 :: o4 :: [] =>
              if [o1, o2, o3, o4].all isDig then
                some (base - ((digitsToNat [o1, o2] * 60 + digitsToNat [o3, o4] : Nat) : Int))
              else none
          | '-' :: o1 :: o2 :: ':' :: o3 :: o4 :: [] =>
              if [o1, o2, o3, o4].all isDig then
                some (base + ((digitsToNat [o1, o2] * 60 + digitsToNat [o3, o4] : Nat) : Int))
              else none
          | _ => none
        else none
      else none
  | _ => none

/-- Model of `pd.Timestamp(start_text)` (external library) for the
provider's period-start strings, followed by the parser's
`pd.to_datetime(..., utc=True)` normalisation: the UTC instant in minutes
since the epoch.  A string outside the modelled format raises, as pandas
does on unparseable input. -/
def pdTimestamp (s : String) : Except PyError Int :=
  match parseIsoMinutes s.data with
  | some m => .ok m
  | none => .error (.valueError ("could not parse timestamp: " ++ s))

/-- Python truthiness filter on an optional text: `None` and the empty
string are falsy, so a metadata field is only set for nonempty text. -/
def textNonEmpty : Option String → Option String
  | some t => if t = "" then none else some t
  | none => none

/-- The optional per-TimeSeries metadata dict `ts_meta` of
`parse_timeseries`; every field is independently optional. -/
structure TsMeta where
  psr_type : Option String := none
  unit_eic : Option String := none
  unit_name : Option String := none
  in_domain : Option String := none
  out_domain : Option String := none
  currency : Option String := none
  price_unit : Option String := none
  quantity_unit : Option String := none
deriving DecidableEq, Repr

/-- One output row of the parser: UTC timestamp, optional numeric value,
and the TimeSeries metadata it was collected under. -/
structure Row where
  timestamp : Int
  value : Option PyFloat
  meta : TsMeta
deriving DecidableEq, Repr

/-- Metadata extraction of `parse_timeseries` lines 107-144: PSR type and
generation-unit identifiers under `MktPSRType`, in/out domains, currency
and units, each kept only when present with nonempty text. -/
def buildMeta (ts : XElem) : TsMeta :=
  { psr_type :=
      match findChild ts "MktPSRType" with
      | some mkt => textNonEmpty (findTextEl mkt "psrType")
      | none => none
    unit_eic :=
      match findChild ts "MktPSRType" with
      | some mkt =>
          match findChild mkt "PowerSystemResources" with
          | some psr => textNonEmpty (findTextEl psr "mRID")
          | none => none
      | none => none
    unit_name :=
      match findChild ts "MktPSRType" with
      | some mkt =>
          match findChild mkt "PowerSystemResources" with
          | some psr => textNonEmpty (findTextEl psr "name")
          | none => none
      | none => none
    in_domain := textNonEmpty (findTextEl ts "in_Domain.mRID")
    out_domain := textNonEmpty (findTextEl ts "out_Domain.mRID")
    currency := textNonEmpty (findTextEl ts "currency_Unit.name")
    price_unit := textNonEmpty (findTextEl ts "price_Measure_Unit.name")
    quantity_unit := textNonEmpty (findTextEl ts "quantity_Measure_Unit.name") }

/-- Embedding of `_extract_point_value`: probe `quantity`, `price.amount`,
`imbalance_Price.amount` in that order, convert the first present text
with `float`; a point with none of the three yields `None`. -/
def extractPointValue (point : XElem) : Except PyError (Option PyFloat) :=
  match findTextEl point "quantity" with
  | some t => Except.map some (pyFloat t)
  | none =>
      match findTextEl point "price.amount" with
      | some t => Except.map some (pyFloat t)
      | none =>
          match findTextEl point "imbalance_Price.amount" with
          | some t => Except.map some (pyFloat t)
          | none => .ok none

/-- The per-Point loop of `parse_timeseries` lines 163-174: skip a Point
without `position`; otherwise parse the position with `int`, extract the
value, and emit a row at `period_start + resolution * (position - 1)`. -/
def pointsRows (meta : TsMeta) (pstart res : Int) : List XElem → Except PyError (List Row)
  | [] => .ok []
  | point :: rest =>
      match findTextEl point "position" with
      | none => pointsRows meta pstart res rest
      | some t => do
          let pos ← pyInt t
          let v ← extractPointValue point
          let rs ← pointsRows meta pstart res rest
          .ok ({ timestamp := pstart + res * (pos - 1), value := v, meta := meta } :: rs)

/-- The per-Period body of `parse_timeseries` lines 147-161: a Period
missing `timeInterval`, `timeInterval/start` or `resolution` is skipped;
otherwise the start instant and the resolution are parsed (either parse
failure aborts the whole parse) and the Points are walked. -/
def periodRows (meta : TsMeta) (period : XElem) : Except PyError (List Row) :=
  match findChild period "timeInterval" with
  | none => .ok []
  | some ti =>
      match findTextEl ti "start" with
      | none => .ok []
      | some startText =>
          match findTextEl period "resolution" with
          | none => .ok []
          | some resText => do
              let ps ← pdTimestamp startText
              let res ← parseResolution resText
              pointsRows meta ps res (findAll period "Point")

/-- All rows of the Periods of one TimeSeries, in document order. -/
def periodsRows (meta : TsMeta) : List XElem → Except PyError (List Row)
  | [] => .ok []
  | p :: rest => do
      let a ← periodRows meta p
      let b ← periodsRows meta rest
      .ok (a ++ b)

/-- All rows of one TimeSeries under its extracted metadata. -/
def tsRows (ts : XElem) : Except PyError (List Row) :=
  periodsRows (buildMeta ts) (findAll ts "Period")

/-- All rows of a list of TimeSeries elements, in document order: the
`rows` list `parse_timeseries` accumulates before sorting. -/
def tsListRows : List XElem → Except PyError (List Row)
  | [] => .ok []
  | ts :: rest => do
      let a ← tsRows ts
      let b ← tsListRows rest
      .ok (a ++ b)

/-- The message of the `NoDataError` raised when the document has no
TimeSeries: the `Reason/text` when present and nonempty (Python
`reason_text or "No data available."`), else the branch default, and the
exception's own default message when no `Reason` element exists. -/
def noDataReasonMsg (root : XElem) : String :=
  match findChild root "Reason" with
  | some r =>
      match findTextEl r "text" with
      | some t => if t = "" then "No data available." else t
      | none => "No data available."
  | none => "No data available for the requested parameters."

/-- The row-collection phase of `parse_timeseries` (everything up to the
final sort): `NoDataError` when the document has no TimeSeries, else the
collected rows, promoted to `NoDataError` when the collection ends empty. -/
def parseCollect (root : XElem) : Except PyError (List Row) :=
  if (findAll root "TimeSeries").isEmpty then .error (.noData (noDataReasonMsg root))
  else do
    let rows ← tsListRows (findAll root "TimeSeries")
    if rows = [] then .error (.noData "No data available for the requested parameters.")
    else .ok rows

/-- Rows in ascending timestamp order. -/
def RowsSorted (l : List Row) : Prop :=
  List.Sorted (fun a b : Row => a.timestamp ≤ b.timestamp) l

/-- The full `parse_timeseries(root) = out` relation: the collection phase
succeeds and `out` is a timestamp-sorted permutation of the collected
rows.  The sort is relational because `df.sort_values("timestamp")` uses
pandas' default, not-guaranteed-stable sorting kind; every behaviour the
library may exhibit is some sorted permutation. -/
def ParseOk (root : XElem) (out : List Row) : Prop :=
  ∃ rows, parseCollect root = .ok rows ∧ rows.Perm out ∧ RowsSorted out

/-- The multi-document branch of `BaseNamespace._query`: parse each
document independently, concatenate in order (`pd.concat(...,
ignore_index=True)` re-indexes densely from 0, which a plain list
concatenation is), sort by timestamp again. -/
def ParseManyOk (docs : List XElem) (out : List Row) : Prop :=
  ∃ parts : List (List Row),
    List.Forall₂ ParseOk docs parts ∧ parts.flatten.Perm out ∧ RowsSorted out

/-- `MAX_REQUEST_RANGE = timedelta(days=365)` of `_http.py`, in minutes. -/
def MAX_REQUEST_RANGE : Int := 365 * 1440

/-- The loop of `_split_years`: chunks `(current, min(current + MAX, end))`
while `current < end`. -/
def splitGo (e cur : Int) : List (Int × Int) :=
  if cur < e then (cur, min (cur + MAX_REQUEST_RANGE) e) :: splitGo e (min (cur + MAX_REQUEST_RANGE) e)
  else []
termination_by (e - cur).toNat
decreasing_by
  simp [MAX_REQUEST_RANGE]
  omega

/-- Embedding of `_split_years(start, end)` of `_http.py`. -/
def splitYears (s e : Int) : List (Int × Int) := splitGo e s

/-- A chunk list that covers `[s, e)` contiguously: each chunk starts where
the previous ended, is nonempty and spans at most the maximal request
range, and the last chunk ends at `e`. -/
def IsChunkChain : Int → Int → List (Int × Int) → Prop
  | s, e, [] => s = e
  | s, e, c :: rest => c.1 = s ∧ s < c.2 ∧ c.2 - c.1 ≤ MAX_REQUEST_RANGE ∧ IsChunkChain c.2 e rest

/-- List-prefix test on characters. -/
def isHeadOf : List Char → List Char → Bool
  | [], _ => true
  | _ :: _, [] => false
  | a :: as, b :: bs => a = b && isHeadOf as bs

/-- Some suffix of the haystack starts with the needle. -/
def suffixHas (needle : List Char) : List Char → Bool
  | [] => isHeadOf needle []
  | c :: rest => isHeadOf needle (c :: rest) || suffixHas needle rest

/-- Substring test: `needle` occurs contiguously inside `hay`. -/
def containsSub (hay needle : String) : Bool := suffixHas needle.data hay.data

/-- Every slug and every code of the registry occurs as a substring of the
`Available: ...` enumeration in `_resolve`'s error message. -/
def enumerationOK (reg : Registry) : Bool :=
  (reg : List (String × CodeEntry)).all fun p =>
    containsSub (availableString reg) p.2.slug && containsSub (availableString reg) p.1

/-- Nonempty all-digit character run followed by exactly the unit letter. -/
def runThenUnit (cs : List Char) (u : Char) : Bool :=
  match cs.reverse with
  | [] => false
  | last :: revDigits => last = u && revDigits ≠ [] && revDigits.all isDig

/-- Written from the spec's words, for comparison with the source's
`_parse_resolution`: exactly the four resolution shapes the specification
lists — `PT<n>M`, `PT<n>H`, `P<n>D`, `P<n>Y` — with nothing before or
after them. -/
def specFourForm (s : String) : Bool :=
  match s.data with
  | 'P' :: 'T' :: rest => runThenUnit rest 'M' || runThenUnit rest 'H'
  | 'P' :: rest => runThenUnit rest 'D' || runThenUnit rest 'Y'
  | _ => false

/-- Document of the spec's position-arithmetic example: one TimeSeries,
one Period starting `2024-06-01T00:00Z` at resolution `PT60M`, one Point
at position `3`. -/
def c1doc : XElem :=
  .node "GL_MarketDocument" none [
    .node "TimeSeries" none [
      .node "Period" none [
        .node "timeInterval" none [
          .node "start" (some "2024-06-01T00:00Z") [],
          .node "end" (some "2024-06-01T03:00Z") []],
        .node "resolution" (some "PT60M") [],
        .node "Point" none [
          .node "position" (some "3") [],
          .node "quantity" (some "100") []]]]]

/-- The single row `c1doc` produces: timestamp `2024-06-01T02:00Z`. -/
def c1row : Row := { timestamp := utcMinutes 2024 6 1 2 0, value := some ⟨100, 0⟩, meta := {} }

/-- A Point carrying only `price.amount`. -/
def priceOnlyPoint : XElem :=
  .node "Point" none [.node "position" (some "1") [], .node "price.amount" (some "82.91") []]

/-- A Point carrying only `quantity`. -/
def qtyOnlyPoint : XElem :=
  .node "Point" none [.node "position" (some "1") [], .node "quantity" (some "450") []]

/-- A Point carrying none of the three value tags. -/
def bareValuePoint : XElem :=
  .node "Point" none [.node "position" (some "1") []]

/-- A document with one TimeSeries whose Period carries the unparseable
resolution `XYZ`: the walk aborts with `ValueError`, not `NoDataError`. -/
def c5doc : XElem :=
  .node "GL_MarketDocument" none [
    .node "TimeSeries" none [
      .node "Period" none [
        .node "timeInterval" none [.node "start" (some "2024-06-01T00:00Z") []],
        .node "resolution" (some "XYZ") [],
        .node "Point" none [
          .node "position" (some "1") [],
          .node "quantity" (some "5") []]]]]

/-- A no-TimeSeries document carrying a `Reason` with text. -/
def reasonDoc : XElem :=
  .node "Acknowledgement_MarketDocument" none [
    .node "Reason" none [
      .node "code" (some "999") [],
      .node "text" (some "No matching data found") []]]

/-- A no-TimeSeries document with no `Reason` element. -/
def emptyDoc : XElem := .node "GL_MarketDocument" none []

/-- Document for the single-element merge witness: one TimeSeries, one
Period of two hourly points. -/
def c8doc : XElem :=
  .node "Publication_MarketDocument" none [
    .node "TimeSeries" none [
      .node "currency_Unit.name" (some "EUR") [],
      .node "Period" none [
        .node "timeInterval" none [.node "start" (some "2024-06-01T00:00Z") []],
        .node "resolution" (some "PT60M") [],
        .node "Point" none [
          .node "position" (some "1") [],
          .node "price.amount" (some "41.25") []],
        .node "Point" none [
          .node "position" (some "2") [],
          .node "price.amount" (some "39.5") []]]]]

/-- The two rows of `c8doc`, in position order. -/
def c8rows : List Row :=
  [{ timestamp := utcMinutes 2024 6 1 0 0, value := some ⟨4125, 2⟩,
     meta := { currency := some "EUR" } },
   { timestamp := utcMinutes 2024 6 1 1 0, value := some ⟨395, 1⟩,
     meta := { currency := some "EUR" } }]

/-! Helper lemmas. -/

theorem isNoData_map {α β : Type} (f : α → β) (r : Except PyError α)
    (h : isNoData r = false) : isNoData (Except.map f r) = false := by
  cases r with
  | ok a => rfl
  | error e => cases e <;> first | rfl | exact h

theorem isNoData_bind {α β : Type} {ma : Except PyError α} {f : α → Except PyError β}
    (h1 : isNoData ma = false) (h2 : ∀ a, isNoData (f a) = false) :
    isNoData (ma >>= f) = false := by
  cases ma with
  | ok a => exact h2 a
  | error e => cases e <;> simp_all [isNoData, Bind.bind, Except.bind]

theorem pyInt_not_noData (s : String) : isNoData (pyInt s) = false := by
  unfold pyInt
  repeat' split
  all_goals rfl

theorem pyFloat_not_noData (s : String) : isNoData (pyFloat s) = false := by
  unfold pyFloat
  repeat' split
  all_goals rfl

theorem pdTimestamp_not_noData (s : String) : isNoData (pdTimestamp s) = false := by
  unfold pdTimestamp
  repeat' split
  all_goals rfl

theorem parseResolution_not_noData (s : String) : isNoData (parseResolution s) = false := by
  unfold parseResolution
  repeat' split
  all_goals rfl

theorem extractPointValue_not_noData (p : XElem) : isNoData (extractPointValue p) = false := by
  unfold extractPointValue
  repeat' split
  all_goals first
    | rfl
    | exact isNoData_map _ _ (pyFloat_not_noData _)

theorem pointsRows_not_noData (meta : TsMeta) (pstart res : Int) (pts : List XElem) :
    isNoData (pointsRows meta pstart res pts) = false := by
  induction pts with
  | nil => rfl
  | cons p rest ih =>
      unfold pointsRows
      split
      · exact ih
      · exact isNoData_bind (pyInt_not_noData _) fun pos =>
          isNoData_bind (extractPointValue_not_noData _) fun v =>
            isNoData_bind ih fun rs => rfl

theorem periodRows_not_noData (meta : TsMeta) (period : XElem) :
    isNoData (periodRows meta period) = false := by
  unfold periodRows
  repeat' split
  all_goals first
    | rfl
    | exact isNoData_bind (pdTimestamp_not_noData _) fun ps =>
        isNoData_bind (parseResolution_not_noData _) fun res =>
          pointsRows_not_noData _ _ _ _

theorem periodsRows_not_noData (meta : TsMeta) (ps : List XElem) :
    isNoData (periodsRows meta ps) = false := by
  induction ps with
  | nil => rfl
  | cons p rest ih =>
      unfold periodsRows
      exact isNoData_bind (periodRows_not_noData _ _) fun a =>
        isNoData_bind ih fun b => rfl

theorem tsRows_not_noData (ts : XElem) : isNoData (tsRows ts) = false :=
  periodsRows_not_noData _ _

theorem tsListRows_not_noData (l : List XElem) : isNoData (tsListRows l) = false := by
  induction l with
  | nil => rfl
  | cons ts rest ih =>
      unfold tsListRows
      exact isNoData_bind (tsRows_not_noData _) fun a =>
        isNoData_bind ih fun b => rfl

/-- The claim of C5 as stated is false on the code: `c5doc` contains a
TimeSeries (so it is in neither of the two `NoData` situations), yet the
parser neither raises `NoData` nor returns rows — the unparseable
resolution `XYZ` aborts it with `ValueError`. -/
theorem c5_counterexample :
    (findAll c5doc "TimeSeries").isEmpty = false ∧
    parseCollect c5doc = .error (.valueError "Cannot parse resolution: XYZ") ∧
    isNoData (parseCollect c5doc) = false := by
  decide

/-- C5 (amended): the parser raises `NoData` exactly when (a) the document
has no TimeSeries — with the `Reason` text as message when present and
nonempty and a default message otherwise — or (b) the walk over the
TimeSeries succeeds with zero rows; in every other case it returns the
collected rows or propagates a `ValueError` from a malformed resolution,
position, value or timestamp — never `NoData`. -/
theorem c5_nodata_exactly (root : XElem) :
    (isNoData (parseCollect root) = true ↔
      ((findAll root "TimeSeries").isEmpty = true ∨
        tsListRows (findAll root "TimeSeries") = .ok [])) ∧
    ((findAll root "TimeSeries").isEmpty = true →
      parseCollect root = .error (.noData (noDataReasonMsg root))) ∧
    ((findAll root "TimeSeries").isEmpty = true → findChild root "Reason" = none →
      parseCollect root = .error (.noData "No data available for the requested parameters.")) ∧
    (∀ r t, (findAll root "TimeSeries").isEmpty = true → findChild root "Reason" = some r →
      findTextEl r "text" = some t → t ≠ "" →
      parseCollect root = .error (.noData t)) ∧
    (∀ rows, (findAll root "TimeSeries").isEmpty = false →
      tsListRows (findAll root "TimeSeries") = .ok rows → rows ≠ [] →
      parseCollect root = .ok rows) ∧
    ((findAll root "TimeSeries").isEmpty = false →
      tsListRows (findAll root "TimeSeries") = .ok [] →
      parseCollect root = .error (.noData "No data available for the requested parameters.")) ∧
    (∀ e, (findAll root "TimeSeries").isEmpty = false →
      tsListRows (findAll root "TimeSeries") = .error e →
      parseCollect root = .error e) := by
  refine ⟨?_, ?_, ?_, ?_, ?_, ?_, ?_⟩
  · by_cases he : (findAll root "TimeSeries").isEmpty
    · simp [parseCollect, he, isNoData]
    · simp only [Bool.not_eq_true] at he
      cases h : tsListRows (findAll root "TimeSeries") with
      | error e =>
          have hn := tsListRows_not_noData (findAll root "TimeSeries")
          rw [h] at hn
          simp [parseCollect, he, h, Bind.bind, Except.bind, hn]
      | ok rows =>
          by_cases hr : rows = []
          · subst hr
            simp [parseCollect, he, h, Bind.bind, Except.bind, isNoData]
          · simp [parseCollect, he, h, Bind.bind, Except.bind, isNoData, hr]
  · intro he
    simp [parseCollect, he]
  · intro he hR
    simp [parseCollect, he, noDataReasonMsg, hR]
  · intro r t he hR hT hne
    simp [parseCollect, he, noDataReasonMsg, hR, hT, hne]
  · intro rows he h hne
    simp [parseCollect, he, h, Bind.bind, Except.bind, hne]
  · intro he h
    simp [parseCollect, he, h, Bind.bind, Except.bind]
  · intro e he h
    simp [parseCollect, he, h, Bind.bind, Except.bind]

/-- Witness for C5 at concrete documents: a Reason-carrying empty document
reports the reason text, a bare empty document the default message. -/
theorem c5_witness :
    parseCollect reasonDoc = .error (.noData "No matching data found") ∧
    parseCollect emptyDoc = .error (.noData "No data available for the requested parameters.") := by
  constructor
  · exact (c5_nodata_exactly reasonDoc).2.2.2.1
      (.node "Reason" none [.node "code" (some "999") [], .node "text" (some "No matching data found") []])
      "No matching data found" (by decide) (by rfl) (by rfl) (by decide)
  · exact (c5_nodata_exactly emptyDoc).2.2.1 (by decide) (by rfl)

/-- C4: `_extract_point_value` probes `quantity`, `price.amount`,
`imbalance_Price.amount` in order and converts the first present text with
`float`; a Point with none of the three yields `None` without error.  The
closed conjuncts instantiate the spec's three examples. -/
theorem c4_value_fallback (point : XElem) :
    (findTextEl point "quantity" = none → findTextEl point "price.amount" = none →
      findTextEl point "imbalance_Price.amount" = none →
      extractPointValue point = .ok none) ∧
    (∀ t, findTextEl point "quantity" = some t →
      extractPointValue point = Except.map some (pyFloat t)) ∧
    (∀ t, findTextEl point "quantity" = none → findTextEl point "price.amount" = some t →
      extractPointValue point = Except.map some (pyFloat t)) ∧
    (∀ t, findTextEl point "quantity" = none → findTextEl point "price.amount" = none →
      findTextEl point "imbalance_Price.amount" = some t →
      extractPointValue point = Except.map some (pyFloat t)) ∧
    extractPointValue priceOnlyPoint = .ok (some ⟨8291, 2⟩) ∧
    extractPointValue qtyOnlyPoint = .ok (some ⟨450, 0⟩) ∧
    extractPointValue bareValuePoint = .ok none := by
  refine ⟨?_, ?_, ?_, ?_, by decide, by decide, by decide⟩
  · intro h1 h2 h3
    simp [extractPointValue, h1, h2, h3]
  · intro t h1
    simp [extractPointValue, h1]
  · intro t h1 h2
    simp [extractPointValue, h1, h2]
  · intro t h1 h2 h3
    simp [extractPointValue, h1, h2, h3]

/-- Witness for C4: a Point carrying only `price.amount` takes its value
from that tag through `float`. -/
theorem c4_witness :
    extractPointValue priceOnlyPoint = Except.map some (pyFloat "82.91") :=
  (c4_value_fallback priceOnlyPoint).2.2.1 "82.91" (by rfl) (by rfl)

/-- C1: the row the Point loop emits for a Point whose position text parses
to `pos` has timestamp `period_start + resolution * (pos - 1)`; on the
spec's example document (start `2024-06-01T00:00Z`, resolution `PT60M`,
position 3) the parser produces exactly one row, and its timestamp is the
UTC instant `2024-06-01T02:00Z`. -/
theorem c1_position_arithmetic :
    (∀ (meta : TsMeta) (pstart res : Int) (point : XElem) (rest : List XElem)
        (t : String) (pos : Int) (v : Option PyFloat),
      findTextEl point "position" = some t →
      pyInt t = .ok pos →
      extractPointValue point = .ok v →
      pointsRows meta pstart res (point :: rest) =
        Except.map
          (fun rs => { timestamp := pstart + res * (pos - 1), value := v, meta := meta } :: rs)
          (pointsRows meta pstart res rest)) ∧
    parseCollect c1doc = .ok [c1row] ∧
    pdTimestamp "2024-06-01T02:00Z" = .ok c1row.timestamp ∧
    (∀ out, ParseOk c1doc out → out = [c1row]) := by
  refine ⟨?_, by decide, by decide, ?_⟩
  · intro meta pstart res point rest t pos v ht hp hv
    cases h : pointsRows meta pstart res rest with
    | error e =>
        simp [pointsRows, ht, hp, hv, h, Bind.bind, Except.bind, Except.map]
    | ok rs =>
        simp [pointsRows, ht, hp, hv, h, Bind.bind, Except.bind, Except.map]
  · rintro out ⟨rows, hc, hperm, hsort⟩
    have hrows : rows = [c1row] := by
      have : (Except.ok rows : Except PyError (List Row)) = .ok [c1row] := by
        rw [← hc]; decide
      exact Except.ok.inj this
    subst hrows
    exact (List.singleton_perm.mp hperm).symm

/-- Witness for C1: the point-loop law at position text `"3"`, start 0 and
resolution 60 minutes yields the offset `60 * 2`. -/
theorem c1_witness :
    pointsRows {} 0 60
      [.node "Point" none [.node "position" (some "3") [],
        .node "quantity" (some "100") []]] =
      .ok [{ timestamp := 0 + 60 * (3 - 1), value := some ⟨100, 0⟩, meta := {} }] := by
  have h := c1_position_arithmetic.1 {} 0 60
    (.node "Point" none [.node "position" (some "3") [], .node "quantity" (some "100") []]) []
    "3" 3 (some ⟨100, 0⟩) (by rfl) (by decide) (by decide)
  rw [h]
  rfl

/-- C2: for every entry of every code registry, `_resolve` maps the
canonical code, the slug and the lower-cased display name back to the
canonical code (lookup order: exact code, then slug, then case-insensitive
name). -/
theorem c2_resolver_round_trip :
    (roundTripOK PSR_TYPES && roundTripOK PROCESS_TYPES && roundTripOK DOCUMENT_TYPES &&
      roundTripOK PRICE_CATEGORIES && roundTripOK BUSINESS_TYPES &&
      roundTripOK MARKET_AGREEMENT_TYPES && roundTripOK DOC_STATUS) = true := by
  decide

/-- The claim of C3 as stated is false on the code: on an unmatched
identifier `_resolve` raises `KeyError`, not `InvalidParameterError`, and
so does `_name` without fallback on an unknown code. -/
theorem c3_counterexample :
    isInvalidParam (resolveCode PSR_TYPES "not-a-real-code") = false ∧
    isKeyErr (resolveCode PSR_TYPES "not-a-real-code") = true ∧
    isInvalidParam (nameOf PSR_TYPES "Z99" none) = false ∧
    isKeyErr (nameOf PSR_TYPES "Z99" none) = true := by
  decide

set_option maxRecDepth 8000 in
/-- C3 (amended): when no lookup rule matches, `_resolve` fails with a
`KeyError` whose message enumerates every valid slug and code of the
registry (checked for all seven registries); `_name` on an unknown code
fails with `KeyError` when no fallback is supplied and returns the
fallback otherwise. -/
theorem c3_unknown_identifier_errors :
    (∀ (reg : Registry) (identifier : String),
      (reg : List (String × CodeEntry)).any (fun p => p.1 = identifier) = false →
      (reg : List (String × CodeEntry)).find?
        (fun p => strCodes p.2.slug = idLowerCodes identifier) = none →
      (reg : List (String × CodeEntry)).find?
        (fun p => (strCodes p.2.name).map lowerN = idLowerCodes identifier) = none →
      resolveCode reg identifier = .error (.keyError (unknownIdMessage reg identifier))) ∧
    (enumerationOK PSR_TYPES && enumerationOK PROCESS_TYPES && enumerationOK DOCUMENT_TYPES &&
      enumerationOK PRICE_CATEGORIES && enumerationOK BUSINESS_TYPES &&
      enumerationOK MARKET_AGREEMENT_TYPES && enumerationOK DOC_STATUS) = true ∧
    (∀ (reg : Registry) (code : String),
      (reg : List (String × CodeEntry)).find? (fun p => p.1 = code) = none →
      nameOf reg code none = .error (.keyError ("Unknown code: '" ++ code ++ "' in registry")) ∧
      ∀ f, nameOf reg code (some f) = .ok f) := by
  refine ⟨?_, by decide, ?_⟩
  · intro reg identifier h1 h2 h3
    simp [resolveCode, h1, h2, h3]
  · intro reg code h
    refine ⟨?_, ?_⟩
    · simp [nameOf, h]
    · intro f
      simp [nameOf, h]

/-- Witness for C3: the amended statement at `PSR_TYPES` and concrete
unknown identifiers. -/
theorem c3_witness :
    resolveCode PSR_TYPES "not-a-real-code" =
      .error (.keyError (unknownIdMessage PSR_TYPES "not-a-real-code")) ∧
    nameOf PSR_TYPES "Z99" none = .error (.keyError ("Unknown code: '" ++ "Z99" ++ "' in registry")) ∧
    nameOf PSR_TYPES "Z99" (some "fallback-name") = .ok "fallback-name" := by
  refine ⟨?_, ?_, ?_⟩
  · exact c3_unknown_identifier_errors.1 PSR_TYPES "not-a-real-code"
      (by decide) (by decide) (by decide)
  · exact (c3_unknown_identifier_errors.2.2 PSR_TYPES "Z99" (by decide)).1
  · exact (c3_unknown_identifier_errors.2.2 PSR_TYPES "Z99" (by decide)).2 "fallback-name"

theorem takeWhile_isDig_append {ds : List Char} (h : ds.all isDig = true) {u : Char}
    (hu : isDig u = false) (tr : List Char) :
    (ds ++ u :: tr).takeWhile isDig = ds := by
  induction ds with
  | nil => simp [List.takeWhile_cons, hu]
  | cons c cs ih =>
      simp only [List.all_cons, Bool.and_eq_true] at h
      simp [List.takeWhile_cons, h.1, ih h.2]

theorem dropWhile_isDig_append {ds : List Char} (h : ds.all isDig = true) {u : Char}
    (hu : isDig u = false) (tr : List Char) :
    (ds ++ u :: tr).dropWhile isDig = u :: tr := by
  induction ds with
  | nil => simp [List.dropWhile_cons, hu]
  | cons c cs ih =>
      simp only [List.all_cons, Bool.and_eq_true] at h
      simp [List.dropWhile_cons, h.1, ih h.2]

theorem matchResAfterP_unit {cs : List Char} {v : Nat} {u : Char}
    (h : matchResAfterP cs = some (v, u)) :
    u = 'M' ∨ u = 'H' ∨ u = 'D' ∨ u = 'Y' := by
  unfold matchResAfterP at h
  split at h
  · exact absurd h (by simp)
  · split at h
    · split at h
      · rename_i u2 _ hu2
        injection h with h2
        injection h2 with _ h3
        subst h3
        exact hu2
      · exact absurd h (by simp)
    · exact absurd h (by simp)

theorem matchResAfterP_digits {ds : List Char} (hne : ds ≠ []) (h : ds.all isDig = true)
    {u : Char} (hud : isDig u = false)
    (hu : u = 'M' ∨ u = 'H' ∨ u = 'D' ∨ u = 'Y') (tr : List Char) :
    matchResAfterP (ds ++ u :: tr) = some (digitsToNat ds, u) := by
  unfold matchResAfterP
  rw [takeWhile_isDig_append h hud, dropWhile_isDig_append h hud]
  simp [hne, hu]

theorem matchT_of_head_digit {c : Char} (hc : isDig c = true) (l : List Char) :
    (match c :: l with | 'T' :: r => r | r => r) = c :: l := by
  split
  · rename_i r heq
    injection heq with h1 _
    rw [h1] at hc
    exact absurd hc (by decide)
  · rfl

theorem matchResolution_unit {s : String} {v : Nat} {u : Char}
    (h : matchResolution s = some (v, u)) :
    u = 'M' ∨ u = 'H' ∨ u = 'D' ∨ u = 'Y' := by
  unfold matchResolution at h
  split at h
  · exact matchResAfterP_unit h
  · exact absurd h (by simp)

/-- The claim of C7 as stated is false on the code: `"P7M"` is not one of
the four spec forms (`PT<n>M`, `PT<n>H`, `P<n>D`, `P<n>Y`), yet
`_parse_resolution` accepts it as 7 minutes — the regex `PT?(\d+)([MHDY])`
makes the `T` optional for every unit and, through `re.match`, ignores
trailing text, as `"PT5Mxx"` shows. -/
theorem c7_counterexample :
    specFourForm "P7M" = false ∧ parseResolution "P7M" = .ok 7 ∧
    specFourForm "PT5Mxx" = false ∧ parseResolution "PT5Mxx" = .ok 5 := by
  decide

/-- C7 (amended): `_parse_resolution` maps every string that starts with
`P`, an optional `T` (for every unit: all eight `T` x unit shape families
are covered — `PT<n>M`, `PT<n>H`, `PT<n>D`, `PT<n>Y`, `P<n>M`, `P<n>H`,
`P<n>D`, `P<n>Y`), a digit run `n` and a unit letter to the stated
duration — `n` minutes for `M`, `n` hours for `H`, `n` days for `D` and
exactly `365 * n` days for `Y` (leap years ignored) — with any trailing
text accepted; it fails, with `ValueError`, exactly on the strings whose
start the regex does not match. -/
theorem c7_resolution_parsing :
    (∀ ds : List Char, ds ≠ [] → ds.all isDig = true → ∀ tr : List Char,
      parseResolution ⟨'P' :: 'T' :: (ds ++ 'M' :: tr)⟩ = .ok ((digitsToNat ds : Nat) : Int) ∧
      parseResolution ⟨'P' :: 'T' :: (ds ++ 'H' :: tr)⟩ = .ok ((60 * digitsToNat ds : Nat) : Int) ∧
      parseResolution ⟨'P' :: (ds ++ 'D' :: tr)⟩ = .ok ((1440 * digitsToNat ds : Nat) : Int) ∧
      parseResolution ⟨'P' :: (ds ++ 'Y' :: tr)⟩ = .ok ((365 * 1440 * digitsToNat ds : Nat) : Int) ∧
      parseResolution ⟨'P' :: (ds ++ 'M' :: tr)⟩ = .ok ((digitsToNat ds : Nat) : Int) ∧
      parseResolution ⟨'P' :: 'T' :: (ds ++ 'D' :: tr)⟩ = .ok ((1440 * digitsToNat ds : Nat) : Int) ∧
      parseResolution ⟨'P' :: 'T' :: (ds ++ 'Y' :: tr)⟩ = .ok ((365 * 1440 * digitsToNat ds : Nat) : Int) ∧
      parseResolution ⟨'P' :: (ds ++ 'H' :: tr)⟩ = .ok ((60 * digitsToNat ds : Nat) : Int)) ∧
    (∀ s : String,
      (∃ e, parseResolution s = .error e) ↔ matchResolution s = none) ∧
    (∀ s : String, matchResolution s = none →
      parseResolution s = .error (.valueError ("Cannot parse resolution: " ++ s))) := by
  refine ⟨?_, ?_, ?_⟩
  · intro ds hne h tr
    obtain ⟨c, cs, rfl⟩ : ∃ c cs, ds = c :: cs := by
      cases ds with
      | nil => exact absurd rfl hne
      | cons c cs => exact ⟨c, cs, rfl⟩
    have hc : isDig c = true := by
      simp only [List.all_cons, Bool.and_eq_true] at h
      exact h.1
    refine ⟨?_, ?_, ?_, ?_, ?_, ?_, ?_, ?_⟩
    · have hm : matchResolution ⟨'P' :: 'T' :: (c :: cs ++ 'M' :: tr)⟩ =
          some (digitsToNat (c :: cs), 'M') :=
        matchResAfterP_digits hne h (by decide) (by decide) tr
      simp only [List.cons_append] at hm
      simp [parseResolution, hm]
    · have hm : matchResolution ⟨'P' :: 'T' :: (c :: cs ++ 'H' :: tr)⟩ =
          some (digitsToNat (c :: cs), 'H') :=
        matchResAfterP_digits hne h (by decide) (by decide) tr
      simp only [List.cons_append] at hm
      simp [parseResolution, hm]
    · have hm : matchResolution ⟨'P' :: (c :: cs ++ 'D' :: tr)⟩ =
          some (digitsToNat (c :: cs), 'D') := by
        show matchResAfterP (match c :: (cs ++ 'D' :: tr) with | 'T' :: r => r | r => r) = _
        rw [matchT_of_head_digit hc]
        exact matchResAfterP_digits hne h (by decide) (by decide) tr
      simp only [List.cons_append] at hm
      simp [parseResolution, hm]
    · have hm : matchResolution ⟨'P' :: (c :: cs ++ 'Y' :: tr)⟩ =
          some (digitsToNat (c :: cs), 'Y') := by
        show matchResAfterP (match c :: (cs ++ 'Y' :: tr) with | 'T' :: r => r | r => r) = _
        rw [matchT_of_head_digit hc]
        exact matchResAfterP_digits hne h (by decide) (by decide) tr
      simp only [List.cons_append] at hm
      simp [parseResolution, hm]
    · have hm : matchResolution ⟨'P' :: (c :: cs ++ 'M' :: tr)⟩ =
          some (digitsToNat (c :: cs), 'M') := by
        show matchResAfterP (match c :: (cs ++ 'M' :: tr) with | 'T' :: r => r | r => r) = _
        rw [matchT_of_head_digit hc]
        exact matchResAfterP_digits hne h (by decide) (by decide) tr
      simp only [List.cons_append] at hm
      simp [parseResolution, hm]
    · have hm : matchResolution ⟨'P' :: 'T' :: (c :: cs ++ 'D' :: tr)⟩ =
          some (digitsToNat (c :: cs), 'D') :=
        matchResAfterP_digits hne h (by decide) (by decide) tr
      simp only [List.cons_append] at hm
      simp [parseResolution, hm]
    · have hm : matchResolution ⟨'P' :: 'T' :: (c :: cs ++ 'Y' :: tr)⟩ =
          some (digitsToNat (c :: cs), 'Y') :=
        matchResAfterP_digits hne h (by decide) (by decide) tr
      simp only [List.cons_append] at hm
      simp [parseResolution, hm]
    · have hm : matchResolution ⟨'P' :: (c :: cs ++ 'H' :: tr)⟩ =
          some (digitsToNat (c :: cs), 'H') := by
        show matchResAfterP (match c :: (cs ++ 'H' :: tr) with | 'T' :: r => r | r => r) = _
        rw [matchT_of_head_digit hc]
        exact matchResAfterP_digits hne h (by decide) (by decide) tr
      simp only [List.cons_append] at hm
      simp [parseResolution, hm]
  · intro s
    constructor
    · rintro ⟨e, he⟩
      cases m : matchResolution s with
      | none => rfl
      | some p =>
          obtain ⟨v, u⟩ := p
          rcases matchResolution_unit m with rfl | rfl | rfl | rfl <;>
            simp [parseResolution, m] at he
    · intro m
      exact ⟨PyError.valueError ("Cannot parse resolution: " ++ s), by simp [parseResolution, m]⟩
  · intro s m
    simp [parseResolution, m]

/-- Witness for C7: the four spec forms at `n = 15`, `6`, `7`, `1` with
empty trailing text, plus the optional-`T` variants `PT3D` and `P2H`,
evaluated to their minute counts. -/
theorem c7_witness :
    parseResolution "PT15M" = .ok 15 ∧
    parseResolution "PT6H" = .ok 360 ∧
    parseResolution "P7D" = .ok 10080 ∧
    parseResolution "P1Y" = .ok 525600 ∧
    parseResolution "PT3D" = .ok 4320 ∧
    parseResolution "P2H" = .ok 120 := by
  have h15 := (c7_resolution_parsing.1 ['1', '5'] (by decide) (by decide) []).1
  have h6 := (c7_resolution_parsing.1 ['6'] (by decide) (by decide) []).2.1
  have h7 := (c7_resolution_parsing.1 ['7'] (by decide) (by decide) []).2.2.1
  have h1 := (c7_resolution_parsing.1 ['1'] (by decide) (by decide) []).2.2.2.1
  have h3 := (c7_resolution_parsing.1 ['3'] (by decide) (by decide) []).2.2.2.2.2.1
  have h2 := (c7_resolution_parsing.1 ['2'] (by decide) (by decide) []).2.2.2.2.2.2.2
  exact ⟨h15, h6, h7, h1, h3, h2⟩

/-- C8: the multi-document merge of `_query` applied to a single-element
document list produces exactly the outputs `parse_timeseries` itself can
produce on that document — parsing each document, concatenating (already
densely 0-indexed as a plain list) and re-sorting is the identity
behaviour for one document. -/
theorem c8_single_merge (doc : XElem) (out : List Row) :
    ParseManyOk [doc] out ↔ ParseOk doc out := by
  constructor
  · rintro ⟨parts, hf, hperm, hsort⟩
    rw [List.forall₂_cons_left_iff] at hf
    obtain ⟨p, u, hp, hnil, rfl⟩ := hf
    rw [List.forall₂_nil_left_iff] at hnil
    subst hnil
    obtain ⟨rows, hc, hp2, _⟩ := hp
    simp only [List.flatten, List.append_nil] at hperm
    exact ⟨rows, hc, hp2.trans hperm, hsort⟩
  · rintro ⟨rows, hc, hperm, hsort⟩
    refine ⟨[out], ?_, by simp, hsort⟩
    exact List.Forall₂.cons ⟨rows, hc, hperm, hsort⟩ List.Forall₂.nil

/-- Witness for C8: the two-row document `c8doc` merged as a singleton
list yields exactly its own parse result. -/
theorem c8_witness : ParseManyOk [c8doc] c8rows := by
  refine (c8_single_merge c8doc c8rows).mpr ⟨c8rows, by decide, List.Perm.refl _, ?_⟩
  unfold RowsSorted c8rows
  simp [List.sorted_cons]
  all_goals decide

theorem lowerN_inj_upperN {a b : Nat} (h : lowerN a = lowerN b) : upperN a = upperN b := by
  unfold lowerN at h
  unfold upperN
  split_ifs at h ⊢ <;> omega

theorem map_lowerN_to_upperN : ∀ {xs ys : List Nat},
    xs.map lowerN = ys.map lowerN → xs.map upperN = ys.map upperN := by
  intro xs
  induction xs with
  | nil =>
      intro ys h
      cases ys with
      | nil => rfl
      | cons y yt => simp at h
  | cons x xt ih =>
      intro ys h
      cases ys with
      | nil => simp at h
      | cons y yt =>
          simp only [List.map_cons, List.cons.injEq] at h ⊢
          exact ⟨lowerN_inj_upperN h.1, ih h.2⟩

theorem find?_eq_some_of_mem_unique {α : Type} {l : List α} {f : α → Bool} {a : α}
    (ha : a ∈ l) (hfa : f a = true) (uniq : ∀ x ∈ l, f x = true → x = a) :
    l.find? f = some a := by
  induction l with
  | nil => cases ha
  | cons b bs ih =>
      rcases List.mem_cons.mp ha with rfl | hmem
      · simp [List.find?, hfa]
      · by_cases hb : f b = true
        · have hba : b = a := uniq b (List.mem_cons_self _ _) hb
          subst hba
          simp [List.find?, hb]
        · simp only [List.find?, Bool.not_eq_true] at hb ⊢
          rw [hb]
          exact ih hmem fun x hx hfx => uniq x (List.mem_cons_of_mem _ hx) hfx

set_option maxRecDepth 16000 in
/-- C9: area resolution is whitespace- and case-insensitive on the ISO
key and case-insensitive on the display name.  The first conjunct covers
every identifier whose normalisation (strip, upper-case, spaces to
underscores) equals the entry's ISO key — so any letter case with spaces
and underscores interchangeable — and the second every identifier whose
stripped lower-casing equals the display name's lower-casing; both resolve
to the entry's canonical EIC area code. -/
theorem c9_area_resolution (iso : String) (e : AreaEntry) (hmem : (iso, e) ∈ AREAS) :
    (∀ v : String, normKeyCodes v = strCodes iso → lookupArea v = .ok e.eic) ∧
    (∀ v : String,
      (strCodes (pyStrip v)).map lowerN = (strCodes e.name).map lowerN →
      lookupArea v = .ok e.eic) := by
  have G1 : ∀ x ∈ AREAS, ∀ y ∈ AREAS, strCodes x.1 = strCodes y.1 → x = y := by decide
  have G2 : ∀ x ∈ AREAS, ∀ y ∈ AREAS,
      ¬ strCodes x.1 = (strCodes y.2.name).map (fun n => replUnderN (upperN n)) := by decide
  have G3 : ∀ x ∈ AREAS, ∀ y ∈ AREAS,
      ¬ (strCodes x.2.eic).map lowerN = (strCodes y.2.name).map lowerN := by decide
  have G4 : ∀ x ∈ AREAS, ∀ y ∈ AREAS,
      (strCodes x.2.name).map lowerN = (strCodes y.2.name).map lowerN → x = y := by decide
  constructor
  · intro v hk
    have hf : AREAS.find? (fun p => strCodes p.1 = normKeyCodes v) = some (iso, e) := by
      refine find?_eq_some_of_mem_unique hmem ?_ ?_
      · simp [hk]
      · intro x hx hfx
        simp only [hk, decide_eq_true_eq] at hfx
        exact G1 x hx (iso, e) hmem hfx
    simp [lookupArea, hf]
  · intro v h
    have hup : (strCodes (pyStrip v)).map upperN = (strCodes e.name).map upperN :=
      map_lowerN_to_upperN h
    have hkey : normKeyCodes v = (strCodes e.name).map (fun n => replUnderN (upperN n)) := by
      simp only [normKeyCodes]
      rw [show (fun n => replUnderN (upperN n)) = replUnderN ∘ upperN from rfl,
        ← List.map_map, ← List.map_map, hup]
    have h1 : AREAS.find? (fun p => strCodes p.1 = normKeyCodes v) = none := by
      rw [List.find?_eq_none]
      intro x hx
      simp only [hkey, decide_eq_true_eq]
      exact G2 x hx (iso, e) hmem
    have h2 : AREAS.find? (fun p => p.2.eic = pyStrip v) = none := by
      rw [List.find?_eq_none]
      intro x hx
      simp only [decide_eq_true_eq]
      intro heq
      have hl : (strCodes x.2.eic).map lowerN = (strCodes e.name).map lowerN := by
        rw [heq]
        exact h
      exact G3 x hx (iso, e) hmem hl
    have h3 : AREAS.find? (fun p =>
        (strCodes p.2.name).map lowerN = (strCodes (pyStrip v)).map lowerN) = some (iso, e) := by
      refine find?_eq_some_of_mem_unique hmem ?_ ?_
      · simp [h]
      · intro x hx hfx
        simp only [decide_eq_true_eq] at hfx
        refine G4 x hx (iso, e) hmem ?_
        rw [hfx, h]
    simp [lookupArea, h1, h2, h3]

/-- Witness for C9 at the spec's own example: `"de lu"`, `"DE_LU"` and
`"Germany/Luxembourg"` all resolve to the EIC code of `DE_LU`. -/
theorem c9_witness :
    lookupArea "de lu" = .ok "10Y1001A1001A82H" ∧
    lookupArea "DE_LU" = .ok "10Y1001A1001A82H" ∧
    lookupArea "Germany/Luxembourg" = .ok "10Y1001A1001A82H" := by
  have hmem : (("DE_LU" : String),
      (⟨"10Y1001A1001A82H", "Germany/Luxembourg", "Europe/Berlin"⟩ : AreaEntry)) ∈ AREAS := by
    decide
  have h := c9_area_resolution "DE_LU" ⟨"10Y1001A1001A82H", "Germany/Luxembourg", "Europe/Berlin"⟩ hmem
  exact ⟨h.1 "de lu" (by decide), h.1 "DE_LU" (by decide), h.2 "Germany/Luxembourg" (by decide)⟩

theorem splitGo_chain (e cur : Int) (h : cur < e) : IsChunkChain cur e (splitGo e cur) := by
  rw [splitGo, if_pos h]
  have hM : (0 : Int) < MAX_REQUEST_RANGE := by norm_num [MAX_REQUEST_RANGE]
  rcases le_total (cur + MAX_REQUEST_RANGE) e with hle | hle
  · rw [min_eq_left hle]
    refine ⟨rfl, by omega, by omega, ?_⟩
    by_cases h2 : cur + MAX_REQUEST_RANGE < e
    · exact splitGo_chain e (cur + MAX_REQUEST_RANGE) h2
    · have he : cur + MAX_REQUEST_RANGE = e := by omega
      rw [he, splitGo, if_neg (lt_irrefl e)]
      rfl
  · rw [min_eq_right hle]
    refine ⟨rfl, h, by omega, ?_⟩
    rw [splitGo, if_neg (lt_irrefl e)]
    rfl
termination_by (e - cur).toNat
decreasing_by
  have hM : (0 : Int) < MAX_REQUEST_RANGE := by norm_num [MAX_REQUEST_RANGE]
  omega

theorem chain_getLast : ∀ {s e : Int} {l : List (Int × Int)},
    IsChunkChain s e l → l ≠ [] → l.getLast?.map Prod.snd = some e := by
  intro s e l
  induction l generalizing s with
  | nil => intro _ hne; exact absurd rfl hne
  | cons c rest ih =>
      intro h _
      cases rest with
      | nil =>
          have : c.2 = e := h.2.2.2
          simp [List.getLast?, this]
      | cons d rest2 =>
          rw [List.getLast?_cons_cons]
          exact ih h.2.2.2 (by simp)

theorem chain_chain' : ∀ {s e : Int} {l : List (Int × Int)},
    IsChunkChain s e l → List.Chain' (fun a b : Int × Int => a.2 = b.1) l := by
  intro s e l
  induction l generalizing s with
  | nil => intro _; exact List.chain'_nil
  | cons c rest ih =>
      intro h
      rw [List.chain'_cons']
      refine ⟨?_, ih h.2.2.2⟩
      intro b hb
      cases rest with
      | nil => simp at hb
      | cons d rest2 =>
          simp only [List.head?_cons, Option.mem_def, Option.some.injEq] at hb
          subst hb
          exact h.2.2.2.1.symm

theorem chain_mem_bounds : ∀ {s e : Int} {l : List (Int × Int)},
    IsChunkChain s e l → ∀ c ∈ l, c.1 < c.2 ∧ c.2 - c.1 ≤ MAX_REQUEST_RANGE := by
  intro s e l
  induction l generalizing s with
  | nil => intro _ c hc; cases hc
  | cons b rest ih =>
      intro h c hc
      rcases List.mem_cons.mp hc with rfl | hmem
      · refine ⟨?_, h.2.2.1⟩
        have h1 := h.1
        have h2 := h.2.1
        omega
      · exact ih h.2.2.2 c hmem

/-- C10: for every pair `start < end`, `_split_years` returns a nonempty
chunk list whose first chunk begins at `start`, whose last chunk ends at
`end`, in which each chunk's end equals the next chunk's start (a
contiguous gapless cover of the range), and in which every chunk is
nonempty and spans at most `MAX_REQUEST_RANGE` (365 days). -/
theorem c10_chunking (s e : Int) (h : s < e) :
    splitYears s e ≠ [] ∧
    (splitYears s e).head?.map Prod.fst = some s ∧
    (splitYears s e).getLast?.map Prod.snd = some e ∧
    List.Chain' (fun a b : Int × Int => a.2 = b.1) (splitYears s e) ∧
    ∀ c ∈ splitYears s e, c.1 < c.2 ∧ c.2 - c.1 ≤ MAX_REQUEST_RANGE := by
  have hc := splitGo_chain e s h
  have hne : splitYears s e ≠ [] := by
    unfold splitYears
    cases hl : splitGo e s with
    | nil =>
        rw [hl] at hc
        exact absurd hc (ne_of_lt h)
    | cons c rest => simp
  refine ⟨hne, ?_, chain_getLast hc hne, chain_chain' hc, chain_mem_bounds hc⟩
  unfold splitYears at hne ⊢
  cases hl : splitGo e s with
  | nil => exact absurd hl hne
  | cons c rest =>
      rw [hl] at hc
      simp [hc.1]

/-- Witness for C10: a 600000-minute range (more than 365 days) splits
into chunks satisfying every invariant. -/
theorem c10_witness :
    splitYears 0 600000 ≠ [] ∧
    (splitYears 0 600000).head?.map Prod.fst = some 0 ∧
    (splitYears 0 600000).getLast?.map Prod.snd = some 600000 ∧
    List.Chain' (fun a b : Int × Int => a.2 = b.1) (splitYears 0 600000) ∧
    ∀ c ∈ splitYears 0 600000, c.1 < c.2 ∧ c.2 - c.1 ≤ MAX_REQUEST_RANGE :=
  c10_chunking 0 600000 (by norm_num)
